import Mathlib

/-!
Verification of the decision layer of `ldap-proxy` (`src/pkg/proxy.go`).

The embedding models the `LdapProxy` server backend: the backend registry
(as the list of backends in iteration order), the per-connection `session`
(its bound `dn`), and every `ldap.Context`-taking operation of the proxy
(`Connect`, `Disconnect`, `Bind`, `Add`, `Delete`, `ExtendedRequest`,
`Modify`, `ModifyDN`, `PasswordModify`, `Search`, `Whoami`).  Operations
return the possibly-updated context, an `Except String` mirroring Go's
`(result, error)` return convention (Go `nil` error = `Except.ok`), and
a trace of the backend methods invoked during the call, mirroring the
order in which the Go code calls `backend.Authenticate` and
`backend.GetUsers`.  Logging and the Prometheus metric observations are
side effects with no influence on results and are not modelled.
-/

namespace LdapProxy

/-- `errors.New("proxy: Invalid session type")` from `proxy.go`. -/
def errInvalidSessionType : String := "proxy: Invalid session type"

/-- LDAP result code `ldap.ResultSuccess` (RFC 4511 value 0). -/
def ResultSuccess : Nat := 0

/-- LDAP result code `ldap.ResultInvalidCredentials` (RFC 4511 value 49). -/
def ResultInvalidCredentials : Nat := 49

/-- LDAP result code `ldap.ResultInsufficientAccessRights` (RFC 4511 value 50). -/
def ResultInsufficientAccessRights : Nat := 50

/-- LDAP result code `ldap.ResultUnwillingToPerform` (RFC 4511 value 53). -/
def ResultUnwillingToPerform : Nat := 53

/-- A backend-native user record: `DN` and a mapping from attribute name to
an ordered sequence of string values (the Go map is modelled as an
association list in iteration order). -/
structure User where
  DN : String
  Attributes : List (String × List String)
deriving DecidableEq, Repr

/-- The backend capability consumed by the proxy: `Name()`,
`Authenticate(dn, password) → bool` and
`GetUsers(filter) → ([]*User, error)`; a failing `GetUsers` is an
`Except.error` carrying the backend's error value. -/
structure Backend where
  name : String
  authenticate : String → String → Bool
  getUsers : String → Except String (List User)

/-- Per-connection mutable state: `session` from `proxy.go`, holding the
bound `dn` (empty string = unauthenticated). -/
structure Session where
  dn : String
deriving DecidableEq, Repr

/-- The `ldap.Context` handed to every operation: either a `*session`
produced by `Connect`, or a value of some other type (the `ctx.(*session)`
type assertion fails on it). -/
inductive Ctx where
  | sess (s : Session)
  | invalid
deriving DecidableEq, Repr

/-- One observable backend invocation made by the proxy. -/
inductive BackendCall where
  | auth (backendName : String)
  | getUsers (backendName : String)
deriving DecidableEq, Repr

/-- `BaseResponse` of the go-ldap library restricted to the fields the
proxy sets: the result `code` and `matchedDN` (zero value `""`). -/
structure BindResponse where
  code : Nat
  matchedDN : String
deriving DecidableEq, Repr

/-- A response carrying only a result code: models `AddResponse`,
`DeleteResponse`, `ExtendedResponse`, `ModifyResponse` and
`ModifyDNResponse`, each of which the proxy fills with a code only. -/
structure BaseResponse where
  code : Nat
deriving DecidableEq, Repr

/-- Wire-facing search entry: `ldap.SearchResult` restricted to the fields
the proxy sets (`DN` and `Attributes`, byte-sequence valued). -/
structure SearchResult where
  DN : String
  Attributes : List (String × List (List UInt8))
deriving DecidableEq, Repr

/-- `ldap.SearchResponse` restricted to the fields the proxy sets. -/
structure SearchResponse where
  code : Nat
  results : List SearchResult
deriving DecidableEq, Repr

/-- `ldap.BindRequest` restricted to the fields the proxy reads
(`Password` is `[]byte` in Go; the proxy uses `string(req.Password)`). -/
structure BindRequest where
  DN : String
  Password : String
deriving DecidableEq, Repr

/-- `ldap.SearchRequest` restricted to the fields the proxy reads. -/
structure SearchRequest where
  BaseDN : String
  Filter : String
deriving DecidableEq, Repr

/-- `Connect` returns a fresh `&session{}`: zero-valued `dn`. -/
def Connect : Ctx := Ctx.sess ⟨""⟩

/-- `Disconnect` only logs; the session is never written. -/
def Disconnect (ctx : Ctx) : Ctx := ctx

/-- The `for _, backend := range serverBackend.backends` loop of `Bind`:
starting from the reset session and the `InvalidCredentials` response, try
each backend in order; on the first `Authenticate` success set `sess.dn`,
the `Success` code and `MatchedDN`, and `break`. -/
def bindLoop (backends : List Backend) (dn password : String)
    (sess : Session) (res : BindResponse) :
    Session × BindResponse × List BackendCall :=
  match backends with
  | [] => (sess, res, [])
  | b :: rest =>
    if b.authenticate dn password then
      (⟨dn⟩, { code := ResultSuccess, matchedDN := dn }, [BackendCall.auth b.name])
    else
      let out := bindLoop rest dn password sess res
      (out.1, out.2.1, BackendCall.auth b.name :: out.2.2)

/-- `LdapProxy.Bind`: fail with `errInvalidSessionType` on a non-session
context; otherwise reset `sess.dn` to `""`, run the backend loop starting
from an `InvalidCredentials` response, and return the response with a nil
error. -/
def Bind (backends : List Backend) (ctx : Ctx) (req : BindRequest) :
    Ctx × Except String BindResponse × List BackendCall :=
  match ctx with
  | Ctx.invalid => (ctx, Except.error errInvalidSessionType, [])
  | Ctx.sess _ =>
    let res0 : BindResponse := { code := ResultInvalidCredentials, matchedDN := "" }
    let out := bindLoop backends req.DN req.Password ⟨""⟩ res0
    (Ctx.sess out.1, Except.ok out.2.1, out.2.2)

/-- `LdapProxy.Add`: unconditionally `UnwillingToPerform`, nil error, no
context check, no backend call. -/
def Add (backends : List Backend) (ctx : Ctx) :
    Ctx × Except String BaseResponse × List BackendCall :=
  (ctx, Except.ok { code := ResultUnwillingToPerform }, [])

/-- `LdapProxy.Delete`: unconditionally `UnwillingToPerform`, nil error. -/
def Delete (backends : List Backend) (ctx : Ctx) :
    Ctx × Except String BaseResponse × List BackendCall :=
  (ctx, Except.ok { code := ResultUnwillingToPerform }, [])

/-- `LdapProxy.ExtendedRequest`: unconditionally `UnwillingToPerform`,
nil error. -/
def ExtendedRequest (backends : List Backend) (ctx : Ctx) :
    Ctx × Except String BaseResponse × List BackendCall :=
  (ctx, Except.ok { code := ResultUnwillingToPerform }, [])

/-- `LdapProxy.Modify`: unconditionally `UnwillingToPerform`, nil error. -/
def Modify (backends : List Backend) (ctx : Ctx) :
    Ctx × Except String BaseResponse × List BackendCall :=
  (ctx, Except.ok { code := ResultUnwillingToPerform }, [])

/-- `LdapProxy.ModifyDN`: unconditionally `UnwillingToPerform`, nil error. -/
def ModifyDN (backends : List Backend) (ctx : Ctx) :
    Ctx × Except String BaseResponse × List BackendCall :=
  (ctx, Except.ok { code := ResultUnwillingToPerform }, [])

/-- `LdapProxy.PasswordModify`: unconditionally returns `([]byte{}, nil)`. -/
def PasswordModify (backends : List Backend) (ctx : Ctx) :
    Ctx × Except String (List UInt8) × List BackendCall :=
  (ctx, Except.ok [], [])

/-- `[]byte(value)`: the UTF-8 bytes of a Go string. -/
def byteCast (s : String) : List UInt8 := s.toUTF8.toList

/-- The per-user conversion loop of `Search`: keep `DN`, keep every
attribute key, byte-cast every string value in order. -/
def convertUser (user : User) : SearchResult :=
  { DN := user.DN
  , Attributes := user.Attributes.map (fun kv => (kv.1, kv.2.map byteCast)) }

/-- The `for _, backend := range serverBackend.backends` loop of `Search`:
call `GetUsers(filter)` on each backend in order; on the first error
return it (discarding everything); otherwise append the converted users
of every backend. -/
def searchLoop (backends : List Backend) (filter : String) :
    Except String (List SearchResult) × List BackendCall :=
  match backends with
  | [] => (Except.ok [], [])
  | b :: rest =>
    match b.getUsers filter with
    | Except.error e => (Except.error e, [BackendCall.getUsers b.name])
    | Except.ok users =>
      let out := searchLoop rest filter
      (out.1.map (fun tail => users.map convertUser ++ tail),
        BackendCall.getUsers b.name :: out.2)

/-- `LdapProxy.Search`: fail with `errInvalidSessionType` on a non-session
context; deny with `InsufficientAccessRights` (and zero-value results)
when `sess.dn == ""`; otherwise fan out to every backend, aborting on the
first backend error, and return a `Success` response with the
concatenated converted results. -/
def Search (backends : List Backend) (ctx : Ctx) (req : SearchRequest) :
    Ctx × Except String SearchResponse × List BackendCall :=
  match ctx with
  | Ctx.invalid => (ctx, Except.error errInvalidSessionType, [])
  | Ctx.sess s =>
    if s.dn = "" then
      (ctx, Except.ok { code := ResultInsufficientAccessRights, results := [] }, [])
    else
      match searchLoop backends req.Filter with
      | (Except.error e, calls) => (ctx, Except.error e, calls)
      | (Except.ok rs, calls) =>
        (ctx, Except.ok { code := ResultSuccess, results := rs }, calls)

/-- `LdapProxy.Whoami`: fail with `errInvalidSessionType` on a non-session
context; otherwise return `sess.dn` with a nil error. -/
def Whoami (ctx : Ctx) : Ctx × Except String String :=
  match ctx with
  | Ctx.invalid => (ctx, Except.error errInvalidSessionType)
  | Ctx.sess s => (ctx, Except.ok s.dn)

/-- Whether a `GetUsers` outcome is a success, decidably. -/
def getUsersOk (b : Backend) (filter : String) : Bool :=
  match b.getUsers filter with
  | Except.ok _ => true
  | Except.error _ => false

/-- The users a backend returns on success (`[]` on error); used to state
the aggregate result of a search in which every backend succeeds. -/
def okUsers (b : Backend) (filter : String) : List User :=
  match b.getUsers filter with
  | Except.ok users => users
  | Except.error _ => []

/-- The bound identity held by a context (`""` for a non-session value). -/
def ctxDn : Ctx → String
  | Ctx.sess s => s.dn
  | Ctx.invalid => ""

/-! ### Helper lemmas about the bind loop -/

theorem bindLoop_all_fail (backends : List Backend) (dn password : String)
    (sess : Session) (res : BindResponse)
    (h : ∀ b ∈ backends, b.authenticate dn password = false) :
    bindLoop backends dn password sess res =
      (sess, res, backends.map (fun b => BackendCall.auth b.name)) := by
  induction backends with
  | nil => rfl
  | cons b rest ih =>
    have hb : b.authenticate dn password = false := h b (by simp)
    have ihr := ih (fun x hx => h x (List.mem_cons_of_mem _ hx))
    simp [bindLoop, hb, ihr]

theorem bindLoop_first_success (pre post : List Backend) (b : Backend)
    (dn password : String) (sess : Session) (res : BindResponse)
    (hpre : ∀ p ∈ pre, p.authenticate dn password = false)
    (hb : b.authenticate dn password = true) :
    bindLoop (pre ++ b :: post) dn password sess res =
      (⟨dn⟩, { code := ResultSuccess, matchedDN := dn },
        (pre ++ [b]).map (fun x => BackendCall.auth x.name)) := by
  induction pre with
  | nil => simp [bindLoop, hb]
  | cons p rest ih =>
    have hp : p.authenticate dn password = false := hpre p (by simp)
    have ihr := ih (fun x hx => hpre x (List.mem_cons_of_mem _ hx))
    simp [bindLoop, hp, ihr]

theorem exists_first_success (backends : List Backend) (dn password : String)
    (h : ∃ b ∈ backends, b.authenticate dn password = true) :
    ∃ pre b post, backends = pre ++ b :: post ∧
      (∀ p ∈ pre, p.authenticate dn password = false) ∧
      b.authenticate dn password = true := by
  induction backends with
  | nil => simp at h
  | cons c rest ih =>
    by_cases hc : c.authenticate dn password = true
    · exact ⟨[], c, rest, rfl, by simp, hc⟩
    · obtain ⟨b, hbmem, hbauth⟩ := h
      rcases List.mem_cons.mp hbmem with hbc | hbrest
      · exact absurd (hbc ▸ hbauth) hc
      · obtain ⟨pre, b', post, hdec, hpre, hb'⟩ := ih ⟨b, hbrest, hbauth⟩
        refine ⟨c :: pre, b', post, by simp [hdec], ?_, hb'⟩
        intro p hp
        rcases List.mem_cons.mp hp with hpc | hppre
        · subst hpc; exact Bool.not_eq_true _ ▸ Bool.of_not_eq_true hc
        · exact hpre p hppre

/-! ### Helper lemmas about the search loop -/

theorem searchLoop_all_ok (backends : List Backend) (filter : String)
    (h : ∀ b ∈ backends, getUsersOk b filter = true) :
    searchLoop backends filter =
      (Except.ok
        ((backends.map (fun b => (okUsers b filter).map convertUser)).flatten),
       backends.map (fun b => BackendCall.getUsers b.name)) := by
  induction backends with
  | nil => rfl
  | cons b rest ih =>
    have hb : getUsersOk b filter = true := h b (by simp)
    rcases hget : b.getUsers filter with e | users
    · simp [getUsersOk, hget] at hb
    · have ihr := ih (fun x hx => h x (List.mem_cons_of_mem _ hx))
      simp [searchLoop, hget, ihr, okUsers, Except.map]

theorem searchLoop_first_error (pre post : List Backend) (b : Backend)
    (filter : String) (e : String)
    (hpre : ∀ p ∈ pre, getUsersOk p filter = true)
    (hb : b.getUsers filter = Except.error e) :
    searchLoop (pre ++ b :: post) filter =
      (Except.error e, (pre ++ [b]).map (fun x => BackendCall.getUsers x.name)) := by
  induction pre with
  | nil => simp [searchLoop, hb]
  | cons p rest ih =>
    have hp : getUsersOk p filter = true := hpre p (by simp)
    rcases hget : p.getUsers filter with e' | users
    · simp [getUsersOk, hget] at hp
    · have ihr := ih (fun x hx => hpre x (List.mem_cons_of_mem _ hx))
      simp [searchLoop, hget, ihr, Except.map]

/-- Shared: a search on a session with an empty bound dn is denied before
any backend is consulted. -/
theorem search_unauthenticated (backends : List Backend) (s : Session)
    (req : SearchRequest) (h : s.dn = "") :
    Search backends (Ctx.sess s) req =
      (Ctx.sess s,
       Except.ok { code := ResultInsufficientAccessRights, results := [] },
       []) := by
  simp [Search, h]

/-! ### Concrete fixtures for witnesses -/

/-- A backend that rejects every credential and returns no users. -/
def bReject : Backend :=
  { name := "reject", authenticate := fun _ _ => false
  , getUsers := fun _ => Except.ok [] }

/-- A backend that accepts every credential. -/
def bAccept : Backend :=
  { name := "accept", authenticate := fun _ _ => true
  , getUsers := fun _ => Except.ok [] }

/-- A second accepting backend, to watch short-circuiting. -/
def bAccept2 : Backend :=
  { name := "accept2", authenticate := fun _ _ => true
  , getUsers := fun _ => Except.ok [] }

/-- Concrete user records for search fixtures. -/
def u1 : User := { DN := "cn=u1,dc=x", Attributes := [("cn", ["u1", "user one"])] }

def u2 : User := { DN := "cn=u2,dc=x", Attributes := [] }

def u3 : User := { DN := "cn=u3,dc=x", Attributes := [("mail", ["u3@x"])] }

/-- A backend whose `GetUsers` returns `[u1]`. -/
def bUsers1 : Backend :=
  { name := "users1", authenticate := fun _ _ => false
  , getUsers := fun _ => Except.ok [u1] }

/-- A backend whose `GetUsers` returns `[u2, u3]`. -/
def bUsers2 : Backend :=
  { name := "users2", authenticate := fun _ _ => false
  , getUsers := fun _ => Except.ok [u2, u3] }

/-- A backend whose `GetUsers` always fails. -/
def bDown : Backend :=
  { name := "down", authenticate := fun _ _ => false
  , getUsers := fun _ => Except.error "backend down" }

/-! ### Claims -/

/-- C1: for every registry and bind request `(dn, credential)` such that
some registered backend authenticates it, `Bind` on a valid session
returns result code `Success` with `MatchedDN = dn` and a nil error, sets
the session identity to `dn`, and the first backend (in registry
iteration order) reporting success wins: the consulted backends are
exactly the failing prefix followed by that backend, so no backend after
it is consulted. -/
theorem bind_first_success_wins (backends : List Backend) (s : Session)
    (req : BindRequest)
    (h : ∃ b ∈ backends, b.authenticate req.DN req.Password = true) :
    ∃ pre b post, backends = pre ++ b :: post ∧
      (∀ p ∈ pre, p.authenticate req.DN req.Password = false) ∧
      b.authenticate req.DN req.Password = true ∧
      Bind backends (Ctx.sess s) req =
        (Ctx.sess ⟨req.DN⟩,
         Except.ok { code := ResultSuccess, matchedDN := req.DN },
         (pre ++ [b]).map (fun x => BackendCall.auth x.name)) := by
  obtain ⟨pre, b, post, hdec, hpre, hb⟩ :=
    exists_first_success backends req.DN req.Password h
  refine ⟨pre, b, post, hdec, hpre, hb, ?_⟩
  subst hdec
  simp [Bind, bindLoop_first_success pre post b req.DN req.Password _ _ hpre hb]

/-- Witness for C1: with registry `[bReject, bAccept, bAccept2]` some
backend authenticates, and the decomposition of the theorem holds. -/
theorem bind_first_success_wins_witness :
    (∃ b ∈ [bReject, bAccept, bAccept2],
        b.authenticate "cn=a,dc=x" "pw" = true) ∧
    (∃ pre b post,
      ([bReject, bAccept, bAccept2] : List Backend) = pre ++ b :: post ∧
      (∀ p ∈ pre, p.authenticate "cn=a,dc=x" "pw" = false) ∧
      b.authenticate "cn=a,dc=x" "pw" = true ∧
      Bind [bReject, bAccept, bAccept2] (Ctx.sess ⟨""⟩) ⟨"cn=a,dc=x", "pw"⟩ =
        (Ctx.sess ⟨"cn=a,dc=x"⟩,
         Except.ok { code := ResultSuccess, matchedDN := "cn=a,dc=x" },
         (pre ++ [b]).map (fun x => BackendCall.auth x.name))) :=
  ⟨⟨bAccept, by simp [bReject, bAccept], rfl⟩,
   bind_first_success_wins [bReject, bAccept, bAccept2] ⟨""⟩ ⟨"cn=a,dc=x", "pw"⟩
     ⟨bAccept, by simp [bReject, bAccept], rfl⟩⟩

/-- C2: when no registered backend authenticates the request — the empty
registry included — `Bind` on a valid session returns
`InvalidCredentials` with a nil error and leaves the session identity
empty; and the whole outcome is independent of the session's previous
identity, because a bind attempt resets the identity before consulting
any backend. -/
theorem bind_all_fail_invalid_credentials (backends : List Backend)
    (s : Session) (req : BindRequest)
    (h : ∀ b ∈ backends, b.authenticate req.DN req.Password = false) :
    Bind backends (Ctx.sess s) req =
      (Ctx.sess ⟨""⟩,
       Except.ok { code := ResultInvalidCredentials, matchedDN := "" },
       backends.map (fun b => BackendCall.auth b.name)) ∧
    (∀ s' : Session,
      Bind backends (Ctx.sess s') req = Bind backends (Ctx.sess s) req) := by
  constructor
  · simp [Bind, bindLoop_all_fail backends req.DN req.Password _ _ h]
  · intro s'
    rfl

/-- Witness for C2: the rejecting registry `[bReject]` and a session that
had a previous identity. -/
theorem bind_all_fail_invalid_credentials_witness :
    (∀ b ∈ [bReject], b.authenticate "cn=a,dc=x" "pw" = false) ∧
    (Bind [bReject] (Ctx.sess ⟨"cn=old,dc=x"⟩) ⟨"cn=a,dc=x", "pw"⟩ =
      (Ctx.sess ⟨""⟩,
       Except.ok { code := ResultInvalidCredentials, matchedDN := "" },
       [bReject].map (fun b => BackendCall.auth b.name)) ∧
    (∀ s' : Session,
      Bind [bReject] (Ctx.sess s') ⟨"cn=a,dc=x", "pw"⟩ =
        Bind [bReject] (Ctx.sess ⟨"cn=old,dc=x"⟩) ⟨"cn=a,dc=x", "pw"⟩)) :=
  ⟨by simp [bReject],
   bind_all_fail_invalid_credentials [bReject] ⟨"cn=old,dc=x"⟩
     ⟨"cn=a,dc=x", "pw"⟩ (by simp [bReject])⟩

/-- C3: for every session state and context, `Add`, `Delete`, `Modify`,
`ModifyDN` and `ExtendedRequest` return `UnwillingToPerform` with a nil
error, `PasswordModify` returns an empty byte result with a nil error,
and none of them makes any backend call. -/
theorem mutating_operations_rejected (backends : List Backend) (ctx : Ctx) :
    Add backends ctx =
      (ctx, Except.ok { code := ResultUnwillingToPerform }, []) ∧
    Delete backends ctx =
      (ctx, Except.ok { code := ResultUnwillingToPerform }, []) ∧
    Modify backends ctx =
      (ctx, Except.ok { code := ResultUnwillingToPerform }, []) ∧
    ModifyDN backends ctx =
      (ctx, Except.ok { code := ResultUnwillingToPerform }, []) ∧
    ExtendedRequest backends ctx =
      (ctx, Except.ok { code := ResultUnwillingToPerform }, []) ∧
    PasswordModify backends ctx = (ctx, Except.ok [], []) :=
  ⟨rfl, rfl, rfl, rfl, rfl, rfl⟩

/-- C4: a `Search` on a valid session whose identity is empty returns
`InsufficientAccessRights` with a nil error and makes zero backend
calls. -/
theorem search_unauth_denied (backends : List Backend) (s : Session)
    (req : SearchRequest) (h : s.dn = "") :
    Search backends (Ctx.sess s) req =
      (Ctx.sess s,
       Except.ok { code := ResultInsufficientAccessRights, results := [] },
       []) :=
  search_unauthenticated backends s req h

/-- Witness for C4: a fresh session searching over a registry that would
have results. -/
theorem search_unauth_denied_witness :
    ((⟨""⟩ : Session).dn = "") ∧
    Search [bUsers1, bUsers2] (Ctx.sess ⟨""⟩) ⟨"dc=x", "(objectClass=*)"⟩ =
      (Ctx.sess ⟨""⟩,
       Except.ok { code := ResultInsufficientAccessRights, results := [] },
       []) :=
  ⟨rfl, search_unauth_denied [bUsers1, bUsers2] ⟨""⟩ ⟨"dc=x", "(objectClass=*)"⟩ rfl⟩

/-- Shared: a registry in which some backend's `GetUsers` fails splits
into a succeeding prefix, the first failing backend and its error, and a
remainder. -/
theorem exists_first_error (backends : List Backend) (filter : String)
    (h : ∃ b ∈ backends, getUsersOk b filter = false) :
    ∃ pre b post e, backends = pre ++ b :: post ∧
      (∀ p ∈ pre, getUsersOk p filter = true) ∧
      b.getUsers filter = Except.error e := by
  induction backends with
  | nil => simp at h
  | cons c rest ih =>
    cases hc : getUsersOk c filter with
    | false =>
      rcases hget : c.getUsers filter with e | users
      · exact ⟨[], c, rest, e, rfl, by simp, hget⟩
      · simp [getUsersOk, hget] at hc
    | true =>
      obtain ⟨b, hbmem, hbbad⟩ := h
      rcases List.mem_cons.mp hbmem with hbc | hbrest
      · subst hbc; simp [hc] at hbbad
      · obtain ⟨pre, b', post, e, hdec, hpre, hb'⟩ := ih ⟨b, hbrest, hbbad⟩
        refine ⟨c :: pre, b', post, e, by simp [hdec], ?_, hb'⟩
        intro p hp
        rcases List.mem_cons.mp hp with hpc | hppre
        · subst hpc; exact hc
        · exact hpre p hppre

/-- C5: on an authenticated session, if any backend's `GetUsers` fails,
the whole search fails, propagating verbatim the error of the first
failing backend in iteration order (no success response, results from
the earlier, succeeding backends discarded), and the backends consulted
are exactly the succeeding prefix followed by that failing backend. -/
theorem search_backend_error_aborts (backends : List Backend)
    (s : Session) (req : SearchRequest)
    (hdn : s.dn ≠ "")
    (h : ∃ b ∈ backends, getUsersOk b req.Filter = false) :
    ∃ pre b post e, backends = pre ++ b :: post ∧
      (∀ p ∈ pre, getUsersOk p req.Filter = true) ∧
      b.getUsers req.Filter = Except.error e ∧
      Search backends (Ctx.sess s) req =
        (Ctx.sess s, Except.error e,
         (pre ++ [b]).map (fun x => BackendCall.getUsers x.name)) := by
  obtain ⟨pre, b, post, e, hdec, hpre, hb⟩ :=
    exists_first_error backends req.Filter h
  refine ⟨pre, b, post, e, hdec, hpre, hb, ?_⟩
  subst hdec
  simp [Search, hdn, searchLoop_first_error pre post b req.Filter e hpre hb]

/-- Witness for C5: backend `bUsers1` succeeds, `bDown` fails, `bUsers2`
would have returned users; the search fails with the backend's error. -/
theorem search_backend_error_aborts_witness :
    ((⟨"cn=a,dc=x"⟩ : Session).dn ≠ "") ∧
    (∃ b ∈ [bUsers1, bDown, bUsers2], getUsersOk b "(objectClass=*)" = false) ∧
    (∃ pre b post e,
      ([bUsers1, bDown, bUsers2] : List Backend) = pre ++ b :: post ∧
      (∀ p ∈ pre, getUsersOk p "(objectClass=*)" = true) ∧
      b.getUsers "(objectClass=*)" = Except.error e ∧
      Search [bUsers1, bDown, bUsers2] (Ctx.sess ⟨"cn=a,dc=x"⟩)
          ⟨"dc=x", "(objectClass=*)"⟩ =
        (Ctx.sess ⟨"cn=a,dc=x"⟩, Except.error e,
         (pre ++ [b]).map (fun x => BackendCall.getUsers x.name))) :=
  ⟨by decide, ⟨bDown, by simp, by decide⟩,
   search_backend_error_aborts [bUsers1, bDown, bUsers2] ⟨"cn=a,dc=x"⟩
     ⟨"dc=x", "(objectClass=*)"⟩ (by decide) ⟨bDown, by simp, by decide⟩⟩

/-- C6: on an authenticated session, when every backend's `GetUsers`
succeeds, `Search` returns code `Success` with a nil error, and the
result list is the concatenation — in backend-iteration order, then
per-backend result order — of one converted `SearchResult` per returned
`User`, where the conversion keeps the `DN`, keeps every attribute key,
and byte-casts each attribute's ordered string values; with zero
registered backends this is the empty success result. -/
theorem search_all_ok_aggregates (backends : List Backend) (s : Session)
    (req : SearchRequest)
    (hdn : s.dn ≠ "")
    (hok : ∀ b ∈ backends, getUsersOk b req.Filter = true) :
    Search backends (Ctx.sess s) req =
      (Ctx.sess s,
       Except.ok
         { code := ResultSuccess
         , results :=
             (backends.map
               (fun b => (okUsers b req.Filter).map convertUser)).flatten },
       backends.map (fun b => BackendCall.getUsers b.name)) ∧
    (∀ u : User, (convertUser u).DN = u.DN ∧
      (convertUser u).Attributes =
        u.Attributes.map (fun kv => (kv.1, kv.2.map byteCast))) := by
  constructor
  · simp [Search, hdn, searchLoop_all_ok backends req.Filter hok]
  · intro u
    exact ⟨rfl, rfl⟩

/-- Witness for C6: registry `[bUsers1, bUsers2]` (one and two users) on
an authenticated session; also instantiates the zero-backend case shape
through the same theorem statement at `[bUsers1, bUsers2]`. -/
theorem search_all_ok_aggregates_witness :
    ((⟨"cn=a,dc=x"⟩ : Session).dn ≠ "") ∧
    (∀ b ∈ [bUsers1, bUsers2], getUsersOk b "(objectClass=*)" = true) ∧
    (Search [bUsers1, bUsers2] (Ctx.sess ⟨"cn=a,dc=x"⟩)
        ⟨"dc=x", "(objectClass=*)"⟩ =
      (Ctx.sess ⟨"cn=a,dc=x"⟩,
       Except.ok
         { code := ResultSuccess
         , results :=
             (([bUsers1, bUsers2] : List Backend).map
               (fun b => (okUsers b "(objectClass=*)").map convertUser)).flatten },
       ([bUsers1, bUsers2] : List Backend).map
         (fun b => BackendCall.getUsers b.name)) ∧
    (∀ u : User, (convertUser u).DN = u.DN ∧
      (convertUser u).Attributes =
        u.Attributes.map (fun kv => (kv.1, kv.2.map byteCast)))) :=
  ⟨by decide, by decide,
   search_all_ok_aggregates [bUsers1, bUsers2] ⟨"cn=a,dc=x"⟩
     ⟨"dc=x", "(objectClass=*)"⟩ (by decide) (by decide)⟩

/-- Shared: the bind loop either ends in the success state — session set
to the requested dn, `Success` response — or leaves the session and
response it was started with untouched. -/
theorem bindLoop_cases (backends : List Backend) (dn password : String)
    (sess : Session) (res : BindResponse) :
    ((bindLoop backends dn password sess res).1 = ⟨dn⟩ ∧
     (bindLoop backends dn password sess res).2.1 =
       { code := ResultSuccess, matchedDN := dn }) ∨
    ((bindLoop backends dn password sess res).1 = sess ∧
     (bindLoop backends dn password sess res).2.1 = res) := by
  induction backends with
  | nil => exact Or.inr ⟨rfl, rfl⟩
  | cons b rest ih =>
    cases hb : b.authenticate dn password with
    | true => exact Or.inl (by simp [bindLoop, hb])
    | false =>
      rcases ih with ⟨h1, h2⟩ | ⟨h1, h2⟩
      · exact Or.inl (by simp [bindLoop, hb, h1, h2])
      · exact Or.inr (by simp [bindLoop, hb, h1, h2])

/-- C7 counterexample: with a backend that accepts the anonymous dn `""`,
`Bind` answers `Success` yet the session identity afterward is empty —
so "result code `Success` iff the session's identity is non-empty
afterward" is false at this input. -/
theorem bind_success_iff_nonempty_counterexample :
    ¬ ((Bind [bAccept] (Ctx.sess ⟨"cn=old,dc=x"⟩) ⟨"", "pw"⟩).2.1 =
          Except.ok { code := ResultSuccess, matchedDN := "" } →
        ctxDn (Bind [bAccept] (Ctx.sess ⟨"cn=old,dc=x"⟩) ⟨"", "pw"⟩).1 ≠ "") :=
  fun himp => himp rfl rfl

/-- C7 amended: after every `Bind` on a valid session the error is nil
and: on `Success` the identity equals the requested dn; otherwise the
code is `InvalidCredentials` and the identity is empty; and whenever the
requested dn is non-empty, `Success` holds iff the identity afterward is
non-empty (the anonymous dn `""` is the sole exception: a successful
anonymous bind leaves the identity empty). -/
theorem bind_state_transition (backends : List Backend) (s : Session)
    (req : BindRequest) :
    ∃ resp : BindResponse,
      (Bind backends (Ctx.sess s) req).2.1 = Except.ok resp ∧
      (resp.code = ResultSuccess →
        (Bind backends (Ctx.sess s) req).1 = Ctx.sess ⟨req.DN⟩) ∧
      (resp.code ≠ ResultSuccess →
        resp.code = ResultInvalidCredentials ∧
        (Bind backends (Ctx.sess s) req).1 = Ctx.sess ⟨""⟩) ∧
      (req.DN ≠ "" →
        (resp.code = ResultSuccess ↔
          ctxDn (Bind backends (Ctx.sess s) req).1 ≠ "")) := by
  rcases bindLoop_cases backends req.DN req.Password ⟨""⟩
      { code := ResultInvalidCredentials, matchedDN := "" } with
    ⟨h1, h2⟩ | ⟨h1, h2⟩
  · refine ⟨{ code := ResultSuccess, matchedDN := req.DN }, ?_, ?_, ?_, ?_⟩
    · simp [Bind, h2]
    · intro _; simp [Bind, h1]
    · intro hne; exact absurd rfl hne
    · intro hdn
      constructor
      · intro _; simp [Bind, h1, ctxDn, hdn]
      · intro _; rfl
  · refine ⟨{ code := ResultInvalidCredentials, matchedDN := "" }, ?_, ?_, ?_, ?_⟩
    · simp [Bind, h2]
    · intro hc; simp [ResultInvalidCredentials, ResultSuccess] at hc
    · intro _; exact ⟨rfl, by simp [Bind, h1]⟩
    · intro _
      constructor
      · intro hc; simp [ResultInvalidCredentials, ResultSuccess] at hc
      · intro hne; exact absurd (by simp [Bind, h1, ctxDn]) hne

/-- C8 counterexample: `Add` invoked with a context that is not a session
does not signal `errInvalidSessionType`; it returns the fixed
`UnwillingToPerform` response with a nil error — so "every operation
signals InvalidSessionType on a wrong context" is false at this input. -/
theorem invalid_context_counterexample :
    (Add [] Ctx.invalid).2.1 =
        Except.ok { code := ResultUnwillingToPerform } ∧
      (Add [] Ctx.invalid).2.1 ≠ Except.error errInvalidSessionType :=
  ⟨rfl, fun h => Except.noConfusion h⟩

/-- C8 amended: only `Bind`, `Search` and `Whoami` signal
`errInvalidSessionType` on a non-session context; `Add`, `Delete`,
`Modify`, `ModifyDN` and `ExtendedRequest` ignore the context and return
`UnwillingToPerform` with a nil error, `PasswordModify` returns an empty
byte result with a nil error, and `Disconnect` returns silently. -/
theorem invalid_context_behaviour (backends : List Backend)
    (req : BindRequest) (sreq : SearchRequest) :
    (Bind backends Ctx.invalid req).2.1 =
        Except.error errInvalidSessionType ∧
    (Search backends Ctx.invalid sreq).2.1 =
        Except.error errInvalidSessionType ∧
    (Whoami Ctx.invalid).2 = Except.error errInvalidSessionType ∧
    (Add backends Ctx.invalid).2.1 =
        Except.ok { code := ResultUnwillingToPerform } ∧
    (Delete backends Ctx.invalid).2.1 =
        Except.ok { code := ResultUnwillingToPerform } ∧
    (Modify backends Ctx.invalid).2.1 =
        Except.ok { code := ResultUnwillingToPerform } ∧
    (ModifyDN backends Ctx.invalid).2.1 =
        Except.ok { code := ResultUnwillingToPerform } ∧
    (ExtendedRequest backends Ctx.invalid).2.1 =
        Except.ok { code := ResultUnwillingToPerform } ∧
    (PasswordModify backends Ctx.invalid).2.1 = Except.ok [] ∧
    Disconnect Ctx.invalid = Ctx.invalid :=
  ⟨rfl, rfl, rfl, rfl, rfl, rfl, rfl, rfl, rfl, rfl⟩

/-- C9: the session identity is written only by `Bind` — `Search`,
`Whoami`, `Disconnect`, `Add`, `Delete`, `Modify`, `ModifyDN`,
`ExtendedRequest` and `PasswordModify` leave the context exactly as they
found it. -/
theorem identity_frame (backends : List Backend) (ctx : Ctx)
    (req : SearchRequest) :
    (Search backends ctx req).1 = ctx ∧
    (Whoami ctx).1 = ctx ∧
    Disconnect ctx = ctx ∧
    (Add backends ctx).1 = ctx ∧
    (Delete backends ctx).1 = ctx ∧
    (Modify backends ctx).1 = ctx ∧
    (ModifyDN backends ctx).1 = ctx ∧
    (ExtendedRequest backends ctx).1 = ctx ∧
    (PasswordModify backends ctx).1 = ctx := by
  refine ⟨?_, ?_, rfl, rfl, rfl, rfl, rfl, rfl, rfl⟩
  · cases ctx with
    | invalid => rfl
    | sess s =>
      by_cases h : s.dn = ""
      · simp [Search, h]
      · rcases hsl : searchLoop backends req.Filter with ⟨r, calls⟩
        cases r with
        | error e => simp [Search, h, hsl]
        | ok rs => simp [Search, h, hsl]
  · cases ctx <;> rfl

/-- C10: an anonymous bind (`dn = ""`) accepted by some backend returns
`Success` with `MatchedDN = ""` yet leaves the session identity empty, so
a subsequent `Search` on the very same session is denied with
`InsufficientAccessRights`. -/
theorem anonymous_bind_not_authenticated (backends : List Backend)
    (s : Session) (password : String) (sreq : SearchRequest)
    (h : ∃ b ∈ backends, b.authenticate "" password = true) :
    (Bind backends (Ctx.sess s) ⟨"", password⟩).2.1 =
      Except.ok { code := ResultSuccess, matchedDN := "" } ∧
    (Bind backends (Ctx.sess s) ⟨"", password⟩).1 = Ctx.sess ⟨""⟩ ∧
    Search backends (Bind backends (Ctx.sess s) ⟨"", password⟩).1 sreq =
      ((Bind backends (Ctx.sess s) ⟨"", password⟩).1,
       Except.ok { code := ResultInsufficientAccessRights, results := [] },
       []) := by
  obtain ⟨pre, b, post, hdec, hpre, hb⟩ :=
    exists_first_success backends "" password h
  have hbind : Bind backends (Ctx.sess s) ⟨"", password⟩ =
      (Ctx.sess ⟨""⟩,
       Except.ok { code := ResultSuccess, matchedDN := "" },
       (pre ++ [b]).map (fun x => BackendCall.auth x.name)) := by
    subst hdec
    simp [Bind, bindLoop_first_success pre post b "" password _ _ hpre hb]
  rw [hbind]
  exact ⟨rfl, rfl, search_unauthenticated backends ⟨""⟩ sreq rfl⟩

/-- Witness for C10: a single accepting backend, an anonymous bind on a
previously authenticated session, then a denied search. -/
theorem anonymous_bind_not_authenticated_witness :
    (∃ b ∈ [bAccept], b.authenticate "" "pw" = true) ∧
    ((Bind [bAccept] (Ctx.sess ⟨"cn=old,dc=x"⟩) ⟨"", "pw"⟩).2.1 =
      Except.ok { code := ResultSuccess, matchedDN := "" } ∧
    (Bind [bAccept] (Ctx.sess ⟨"cn=old,dc=x"⟩) ⟨"", "pw"⟩).1 = Ctx.sess ⟨""⟩ ∧
    Search [bAccept] (Bind [bAccept] (Ctx.sess ⟨"cn=old,dc=x"⟩) ⟨"", "pw"⟩).1
        ⟨"dc=x", "(objectClass=*)"⟩ =
      ((Bind [bAccept] (Ctx.sess ⟨"cn=old,dc=x"⟩) ⟨"", "pw"⟩).1,
       Except.ok { code := ResultInsufficientAccessRights, results := [] },
       [])) :=
  ⟨⟨bAccept, by simp, rfl⟩,
   anonymous_bind_not_authenticated [bAccept] ⟨"cn=old,dc=x"⟩ "pw"
     ⟨"dc=x", "(objectClass=*)"⟩ ⟨bAccept, by simp, rfl⟩⟩

end LdapProxy
